import Mathlib

/-
Verification of the ssr RAID1-with-CRC request engine (src/ssr.c, src/ssr.h).

Shallow embedding notes.
* Storage is modelled at u32-word granularity: a 512-byte sector is 128
  words; byte offsets and lengths of the C code are divided by 4 (words) or
  512 (sectors).  Every offset the driver ever passes is a multiple of 4,
  so no information is lost.
* A buffer (a kernel page, or the static crcs array) is a total function
  from word index to value.  A disk is a function from sector number and
  word-in-sector index to value.
* The crc32 primitive is external to the repository (linux/crc32.h); it is
  a parameter crcFn of every function that uses it.  CrcLocal says a crc
  function reads exactly the 128 words of one sector, which is true of the
  real crc32.
* submit_bio_wait may fail; the C code ignores its result everywhere.  An
  oracle (indexed by a running count of issued bios) decides which backing
  device operations succeed; on failure the transfer simply does not
  happen, matching the code's ignored return value.  okOracle makes every
  operation succeed.
* The loops over the two backing devices (bounded by ARRAY_SIZE(pdsks) = 2)
  are unrolled; per-sector loops are kept as recursions.
* Freshly allocated pages (alloc_page) are modelled as zero-filled.
-/

namespace SSR

/-! ### Constants from src/ssr.h -/

def KERNEL_SECTOR_SIZE : Nat := 512

def LOGICAL_DISK_SIZE : Nat := 95 * 1024 * 1024

def LOGICAL_DISK_SECTORS : Nat := LOGICAL_DISK_SIZE / KERNEL_SECTOR_SIZE

def LOGICAL_DISK_CRC_SIZE : Nat := LOGICAL_DISK_SECTORS * 4

def LOGICAL_DISK_CRC_SECTORS : Nat := LOGICAL_DISK_CRC_SIZE / KERNEL_SECTOR_SIZE

def CRC_SEED : Nat := 0

def CRC_PER_SECTOR : Nat := KERNEL_SECTOR_SIZE / 4

def get_crc_sector (ith_sect : Nat) : Nat :=
  LOGICAL_DISK_SECTORS + ith_sect / CRC_PER_SECTOR

def get_crc_index (ith_sect : Nat) : Nat :=
  ith_sect % CRC_PER_SECTOR

/-! ### State model -/

/-- A word-addressed buffer (kernel page or u32 array). -/
abbrev Buf := Nat → Nat

/-- Backing storage plus the bookkeeping the claims need: the two disks
(device index, sector, word-in-sector), a log of every sector written by a
device operation, and a running count of issued bios. -/
structure IOState where
  disks : Nat → Nat → Nat → Nat
  log : List (Nat × Nat)
  opc : Nat

/-- Decides, per issued bio, whether the backing device succeeds. -/
abbrev Oracle := Nat → Bool

/-- The external crc32 primitive, over the 128 words of one sector. -/
abbrev CrcFn := (Nat → Nat) → Nat

/-- An oracle under which every backing-device operation succeeds. -/
def okOracle : Oracle := fun _ => true

/-- alloc_page result (modelled zero-filled). -/
def freshPage : Buf := fun _ => 0

/-- A crc function that reads only the 128 words of the sector it is given. -/
def CrcLocal (crcFn : CrcFn) : Prop :=
  ∀ f g : Nat → Nat, (∀ w, w < 128 → f w = g w) → crcFn f = crcFn g

/-- A concrete sector-local stand-in for crc32, used to evaluate the model
on closed inputs. -/
def mockCrc : CrcFn := fun f => f 0

theorem mockCrc_local : CrcLocal mockCrc := by
  intro f g h
  exact h 0 (by norm_num)

/-! ### Page I/O primitives (read_page_from_disk etc., src/ssr.c:63-149) -/

/-- read_page_from_disk: fill bytes [offset, offset+len) of the page from
the device, starting at byte 0 of the given sector.  One bio is issued; on
failure the page is left as it was (the C code ignores the result of
submit_bio_wait). -/
def read_page_from_disk (oracle : Oracle) (page : Buf) (lenB offB : Nat)
    (dev sector : Nat) (st : IOState) : Buf × IOState :=
  let ok := oracle st.opc
  let st₂ : IOState := { st with opc := st.opc + 1 }
  if ok then
    (fun w =>
      if offB / 4 ≤ w ∧ w < offB / 4 + lenB / 4 then
        st.disks dev (sector + (w - offB / 4) / 128) ((w - offB / 4) % 128)
      else page w, st₂)
  else (page, st₂)

/-- write_page_to_disk: write bytes [offset, offset+len) of the page to the
device starting at the given sector.  One bio is issued; on failure the
disk is unchanged. -/
def write_page_to_disk (oracle : Oracle) (page : Buf) (lenB offB : Nat)
    (dev sector : Nat) (st : IOState) : IOState :=
  let ok := oracle st.opc
  if ok then
    { disks := fun d s w =>
        if d = dev ∧ sector ≤ s ∧ s < sector + lenB / 512 then
          page (offB / 4 + (s - sector) * 128 + w)
        else st.disks d s w
      log := st.log ++ (List.range (lenB / 512)).map (fun j => (dev, sector + j))
      opc := st.opc + 1 }
  else { st with opc := st.opc + 1 }

/-- read_payload_from_disk: read via a transient page, then memcpy
bytes [offset, offset+len) into the caller's buffer. -/
def read_payload_from_disk (oracle : Oracle) (sector offB lenB : Nat)
    (dev : Nat) (payload : Buf) (st : IOState) : Buf × IOState :=
  let r := read_page_from_disk oracle freshPage lenB offB dev sector st
  (fun w => if offB / 4 ≤ w ∧ w < offB / 4 + lenB / 4 then r.1 w else payload w,
   r.2)

/-- write_payload_to_disk: memcpy bytes [offset, offset+len) of the caller's
buffer into a transient page, then write that page. -/
def write_payload_to_disk (oracle : Oracle) (payload : Buf) (lenB sector offB : Nat)
    (dev : Nat) (st : IOState) : IOState :=
  let page : Buf := fun w =>
    if offB / 4 ≤ w ∧ w < offB / 4 + lenB / 4 then payload w else freshPage w
  write_page_to_disk oracle page lenB offB dev sector st

/-- write_to_repair_sector (src/ssr.c:166-176): write one sector of good
data and the crc page.  Note the C code writes the crc page from offset 0
regardless of the crc_page_offset argument, which is therefore unused. -/
def write_to_repair_sector (oracle : Oracle) (data_page_good : Buf)
    (data_page_offset : Nat) (crc_page_good : Buf) (crc_page_offset : Nat)
    (dev sector : Nat) (st : IOState) : IOState :=
  let crc_sector := get_crc_sector sector
  let st₂ := write_page_to_disk oracle data_page_good KERNEL_SECTOR_SIZE
    data_page_offset dev sector st
  write_page_to_disk oracle crc_page_good KERNEL_SECTOR_SIZE 0 dev crc_sector st₂

/-! ### Verify-and-repair (check_and_repair_data, src/ssr.c:192-250) -/

/-- The per-sector loop of check_and_repair_data.  i is the loop index, rem
the number of sectors still to check; the crc page and the I/O state are
threaded through.  On a mismatch with a known good page, the C code stores
crc_stored back into the slot it was read from (src/ssr.c:228) and calls
write_to_repair_sector; without a good page it sets is_good = false and
breaks. -/
def check_and_repair_go (oracle : Oracle) (crcFn : CrcFn) (pg : Buf)
    (data_offset : Nat) (crc_index_f : Nat) (good : Option Buf)
    (sector dev : Nat) : Nat → Nat → Buf → IOState → Bool × Buf × IOState
  | _, 0, crc_page, st => (true, crc_page, st)
  | i, rem + 1, crc_page, st =>
    let crc_index_local := (crc_index_f + i) % CRC_PER_SECTOR
    let crc_page_offset :=
      if crc_index_f ≤ crc_index_local then 0 else KERNEL_SECTOR_SIZE
    let crc_comp := crcFn (fun w => pg (data_offset / 4 + i * 128 + w))
    let crc_stored := crc_page (crc_index_f + i)
    if crc_comp = crc_stored then
      check_and_repair_go oracle crcFn pg data_offset crc_index_f good sector dev
        (i + 1) rem crc_page st
    else
      match good with
      | none => (false, crc_page, st)
      | some gd =>
        let crc_page₂ : Buf :=
          fun w => if w = crc_index_f + i then crc_stored else crc_page w
        let st₂ := write_to_repair_sector oracle gd (i * KERNEL_SECTOR_SIZE)
          crc_page₂ crc_page_offset dev (sector + i) st
        check_and_repair_go oracle crcFn pg data_offset crc_index_f good sector dev
          (i + 1) rem crc_page₂ st₂

/-- check_and_repair_data: check data_len/512 sectors of the page against
the crc page; returns is_good together with the (possibly rewritten) crc
page and the I/O state. -/
def check_and_repair_data (oracle : Oracle) (crcFn : CrcFn) (pg : Buf)
    (data_len data_offset : Nat) (crc_page : Buf) (crc_index_f : Nat)
    (good : Option Buf) (sector dev : Nat) (st : IOState) :
    Bool × Buf × IOState :=
  check_and_repair_go oracle crcFn pg data_offset crc_index_f good sector dev
    0 (data_len / KERNEL_SECTOR_SIZE) crc_page st

/-! ### Read path (read_and_check_disks, src/ssr.c:252-343)

The loop over the two backing devices is unrolled.  pg_to_use starts as the
caller's page; it is replaced by a freshly allocated local page only after
a device's data has passed verification.  The second (repair) loop only has
work to do when device 0 failed and device 1 passed, which is the final
branch below. -/

def read_and_check_disks (oracle : Oracle) (crcFn : CrcFn) (bv_page : Buf)
    (data_len data_offset : Nat) (sector : Nat) (st₀ : IOState) :
    Int × Buf × IOState :=
  let crc_sector_f := get_crc_sector sector
  let crc_index_f := get_crc_index sector
  let crc_data_size := KERNEL_SECTOR_SIZE * 2
  -- device 0: read data into the caller's page and the crcs into crc_page
  let r0 := read_page_from_disk oracle bv_page data_len data_offset 0 sector st₀
  let r0c := read_page_from_disk oracle freshPage crc_data_size 0 0 crc_sector_f r0.2
  let k0 := check_and_repair_data oracle crcFn r0.1 data_len data_offset r0c.1
    crc_index_f none 0 0 r0c.2
  if k0.1 then
    -- device 0 verified: the caller keeps its page; device 1 is read into a
    -- local page and repaired from the caller's page where it mismatches
    let r1 := read_page_from_disk oracle freshPage data_len data_offset 1 sector k0.2.2
    let r1c := read_page_from_disk oracle k0.2.1 crc_data_size 0 1 crc_sector_f r1.2
    let k1 := check_and_repair_data oracle crcFn r1.1 data_len data_offset r1c.1
      crc_index_f (some r0.1) sector 1 r1c.2
    (0, r0.1, k1.2.2)
  else
    -- device 0 corrupt: device 1 is read into the caller's page as well
    let r1 := read_page_from_disk oracle r0.1 data_len data_offset 1 sector k0.2.2
    let r1c := read_page_from_disk oracle k0.2.1 crc_data_size 0 1 crc_sector_f r1.2
    let k1 := check_and_repair_data oracle crcFn r1.1 data_len data_offset r1c.1
      crc_index_f none 0 0 r1c.2
    if k1.1 then
      -- device 1 verified: the repair loop re-reads device 0 into the local
      -- page and repairs it from the caller's page
      let r2 := read_page_from_disk oracle freshPage data_len data_offset 0 sector k1.2.2
      let r2c := read_page_from_disk oracle k1.2.1 crc_data_size 0 0 crc_sector_f r2.2
      let k2 := check_and_repair_data oracle crcFn r2.1 data_len data_offset r2c.1
        crc_index_f (some r1.1) sector 0 r2c.2
      (0, r1.1, k2.2.2)
    else
      (-5, r1.1, k1.2.2)

/-! ### Request model and handlers -/

/-- One segment of a request: page, byte length, byte offset in the page. -/
structure Bvec where
  bv_page : Buf
  bv_len : Nat
  bv_offset : Nat

/-- Completion status delivered through bio_endio: BLK_STS_OK or
BLK_STS_IOERR. -/
inductive BioStatus where
  | ok
  | ioerr
deriving DecidableEq

/-- An incoming block request: direction, starting logical sector, the
segments, and the status field the bio arrives with (BLK_STS_OK for a
freshly submitted bio). -/
structure Bio where
  bi_write : Bool
  bi_sector : Nat
  segments : List Bvec
  bi_status : BioStatus

/-- The segment loop of my_read_handler (src/ssr.c:357-366): process the
segments at increasing sector positions, stopping at the first error.
Returns the both_disks_corrupted flag, the final content of each segment's
page, and the I/O state. -/
def my_read_handler_go (oracle : Oracle) (crcFn : CrcFn) :
    List Bvec → Nat → IOState → Bool × List Buf × IOState
  | [], _, st => (false, [], st)
  | bv :: rest, sector, st =>
    let r := read_and_check_disks oracle crcFn bv.bv_page bv.bv_len bv.bv_offset
      sector st
    if r.1 = 0 then
      let k := my_read_handler_go oracle crcFn rest
        (sector + bv.bv_len / KERNEL_SECTOR_SIZE) r.2.2
      (k.1, r.2.1 :: k.2.1, k.2.2)
    else
      (true, r.2.1 :: rest.map (fun b => b.bv_page), r.2.2)

/-- my_read_handler: completes with bio_io_error when some segment found
both copies corrupt, otherwise with bio_endio (the bio's own status). -/
def my_read_handler (oracle : Oracle) (crcFn : CrcFn) (bio : Bio)
    (st : IOState) : BioStatus × List Buf × IOState :=
  let r := my_read_handler_go oracle crcFn bio.segments bio.bi_sector st
  ((if r.1 then BioStatus.ioerr else bio.bi_status), r.2)

/-! ### Write path (my_write_handler, src/ssr.c:376-426) -/

/-- The static u32 crcs[CRC_PER_SECTOR] buffer starts zeroed. -/
def crcsInit : Buf := fun _ => 0

/-- The crc recomputation loop (src/ssr.c:409-413): for each sector of the
segment, store crc32 of the page bytes [i*512, (i+1)*512) — the C code does
not add bv_offset here — into crcs[crc_start_index + i].  Stores past index
127 never reach the disk: the later write_payload_to_disk persists one
sector, i.e. words [0, 128), only. -/
def write_crcs_go (crcFn : CrcFn) (data : Buf) (crc_start_index : Nat) :
    Nat → Nat → Buf → Buf
  | _, 0, crcs => crcs
  | i, rem + 1, crcs =>
    write_crcs_go crcFn data crc_start_index (i + 1) rem
      (fun w => if w = crc_start_index + i then
          crcFn (fun v => data (i * 128 + v))
        else crcs w)

/-- One segment of my_write_handler: write the data to both devices, read
one crc sector from device 0, recompute the crcs of the segment, write the
crc sector back to both devices. -/
def my_write_handler_seg (oracle : Oracle) (crcFn : CrcFn) (bv : Bvec)
    (sector : Nat) (st : IOState) : IOState :=
  let data_len := bv.bv_len
  let crc_sector := LOGICAL_DISK_SECTORS + sector / CRC_PER_SECTOR
  let crc_start_index := sector % CRC_PER_SECTOR
  let st₁ := write_page_to_disk oracle bv.bv_page data_len bv.bv_offset 0 sector st
  let st₂ := write_page_to_disk oracle bv.bv_page data_len bv.bv_offset 1 sector st₁
  let r := read_payload_from_disk oracle crc_sector 0 KERNEL_SECTOR_SIZE 0 crcsInit st₂
  let crcs₂ := write_crcs_go crcFn bv.bv_page crc_start_index 0
    (data_len / KERNEL_SECTOR_SIZE) r.1
  let st₄ := write_payload_to_disk oracle crcs₂ KERNEL_SECTOR_SIZE crc_sector 0 0 r.2
  write_payload_to_disk oracle crcs₂ KERNEL_SECTOR_SIZE crc_sector 0 1 st₄

/-- The segment loop of my_write_handler. -/
def my_write_handler_go (oracle : Oracle) (crcFn : CrcFn) :
    List Bvec → Nat → IOState → IOState
  | [], _, st => st
  | bv :: rest, sector, st =>
    my_write_handler_go oracle crcFn rest (sector + bv.bv_len / KERNEL_SECTOR_SIZE)
      (my_write_handler_seg oracle crcFn bv sector st)

/-- my_write_handler: process every segment, then bio_endio — there is no
error path, so the bio completes with the status it arrived with. -/
def my_write_handler (oracle : Oracle) (crcFn : CrcFn) (bio : Bio)
    (st : IOState) : BioStatus × IOState :=
  (bio.bi_status, my_write_handler_go oracle crcFn bio.segments bio.bi_sector st)

/-! ### Dispatcher (my_submit_bio, src/ssr.c:428-450) -/

/-- What the dispatcher did with the bio. -/
inductive SubmitOutcome where
  | enqueuedWrite
  | enqueuedRead
  | completedInline (status : BioStatus)
deriving DecidableEq

/-- my_submit_bio: allocate the work item; on success select the handler by
direction and enqueue; on failure call bio_endio on the bio — which
completes it with the status it already carries — and return.  The Bool
component is the BLK_QC_T_NONE (no-token) acknowledgment, returned on both
paths. -/
def my_submit_bio (allocOk : Bool) (bio : Bio) : SubmitOutcome × Bool :=
  if allocOk then
    ((if bio.bi_write then SubmitOutcome.enqueuedWrite else SubmitOutcome.enqueuedRead),
     true)
  else
    (SubmitOutcome.completedInline bio.bi_status, true)

/-! ### Spec-side predicate: a device passes verification over a range -/

/-- Device d's copies of sectors [sector, sector+n) all match the CRC slots
stored for them on d.  The slot location is written exactly as the read
path locates it: word (get_crc_index sector + i) of the two CRC sectors
starting at get_crc_sector sector. -/
def devPasses (crcFn : CrcFn) (st : IOState) (d sector n : Nat) : Prop :=
  ∀ i, i < n →
    crcFn (fun w => st.disks d (sector + i) w) =
      st.disks d (get_crc_sector sector + (get_crc_index sector + i) / 128)
        ((get_crc_index sector + i) % 128)

instance (crcFn : CrcFn) (st : IOState) (d sector n : Nat) :
    Decidable (devPasses crcFn st d sector n) := by
  unfold devPasses; infer_instance

/-! ### Arithmetic and constant lemmas -/

theorem KSS_eq : KERNEL_SECTOR_SIZE = 512 := rfl

theorem CPS_eq : CRC_PER_SECTOR = 128 := rfl

theorem LDS_eq : LOGICAL_DISK_SECTORS = 194560 := rfl

theorem LDCS_eq : LOGICAL_DISK_CRC_SECTORS = 1520 := rfl

theorem get_crc_sector_eq (L : Nat) : get_crc_sector L = 194560 + L / 128 := by
  unfold get_crc_sector
  rw [LDS_eq, CPS_eq]

theorem get_crc_index_eq (L : Nat) : get_crc_index L = L % 128 := by
  unfold get_crc_index
  rw [CPS_eq]

theorem mul512_div512 (n : Nat) : n * 512 / 512 = n :=
  Nat.mul_div_cancel n (by norm_num)

theorem mul512_div4 (n : Nat) : n * 512 / 4 = n * 128 := by
  omega

/-! ### Characterizations of the primitives -/

theorem read_page_ok_fst (page : Buf) (lenB offB dev sector : Nat) (st : IOState) :
    (read_page_from_disk okOracle page lenB offB dev sector st).1 = fun w =>
      if offB / 4 ≤ w ∧ w < offB / 4 + lenB / 4 then
        st.disks dev (sector + (w - offB / 4) / 128) ((w - offB / 4) % 128)
      else page w := rfl

theorem read_page_snd (oracle : Oracle) (page : Buf) (lenB offB dev sector : Nat)
    (st : IOState) :
    (read_page_from_disk oracle page lenB offB dev sector st).2 =
      { st with opc := st.opc + 1 } := by
  unfold read_page_from_disk
  by_cases h : oracle st.opc <;> simp [h]

theorem write_page_ok_eq (page : Buf) (lenB offB dev sector : Nat) (st : IOState) :
    write_page_to_disk okOracle page lenB offB dev sector st =
      { disks := fun d s w =>
          if d = dev ∧ sector ≤ s ∧ s < sector + lenB / 512 then
            page (offB / 4 + (s - sector) * 128 + w)
          else st.disks d s w
        log := st.log ++ (List.range (lenB / 512)).map (fun j => (dev, sector + j))
        opc := st.opc + 1 } := rfl

theorem write_page_opc (oracle : Oracle) (page : Buf) (lenB offB dev sector : Nat)
    (st : IOState) :
    (write_page_to_disk oracle page lenB offB dev sector st).opc = st.opc + 1 := by
  unfold write_page_to_disk
  by_cases h : oracle st.opc <;> simp [h]

theorem read_payload_ok_fst (sector offB lenB dev : Nat) (payload : Buf)
    (st : IOState) :
    (read_payload_from_disk okOracle sector offB lenB dev payload st).1 = fun w =>
      if offB / 4 ≤ w ∧ w < offB / 4 + lenB / 4 then
        st.disks dev (sector + (w - offB / 4) / 128) ((w - offB / 4) % 128)
      else payload w := by
  funext w
  simp only [read_payload_from_disk, read_page_ok_fst]
  split
  · rfl
  · rfl

theorem read_payload_snd (oracle : Oracle) (sector offB lenB dev : Nat)
    (payload : Buf) (st : IOState) :
    (read_payload_from_disk oracle sector offB lenB dev payload st).2 =
      { st with opc := st.opc + 1 } := by
  unfold read_payload_from_disk
  rw [read_page_snd]

theorem write_payload_opc (oracle : Oracle) (payload : Buf) (lenB sector offB dev : Nat)
    (st : IOState) :
    (write_payload_to_disk oracle payload lenB sector offB dev st).opc = st.opc + 1 := by
  unfold write_payload_to_disk
  rw [write_page_opc]

/-! ### The check loop without a good page: pure verification -/

theorem check_go_none_snd (oracle : Oracle) (crcFn : CrcFn) (pg : Buf)
    (dOff cif sector dev : Nat) :
    ∀ rem i cp st,
      (check_and_repair_go oracle crcFn pg dOff cif none sector dev i rem cp st).2 =
        (cp, st) := by
  intro rem
  induction rem with
  | zero => intro i cp st; rfl
  | succ rem ih =>
    intro i cp st
    simp only [check_and_repair_go]
    split
    · exact ih (i + 1) cp st
    · rfl

theorem check_go_none_fst (oracle : Oracle) (crcFn : CrcFn) (pg : Buf)
    (dOff cif sector dev : Nat) :
    ∀ rem i cp st,
      ((check_and_repair_go oracle crcFn pg dOff cif none sector dev i rem cp st).1 = true ↔
        ∀ j, i ≤ j → j < i + rem →
          crcFn (fun w => pg (dOff / 4 + j * 128 + w)) = cp (cif + j)) := by
  intro rem
  induction rem with
  | zero =>
    intro i cp st
    simp only [check_and_repair_go]
    constructor
    · intro _ j h1 h2; omega
    · intro _; trivial
  | succ rem ih =>
    intro i cp st
    simp only [check_and_repair_go]
    split
    case isTrue h =>
      rw [ih (i + 1) cp st]
      constructor
      · intro hall j h1 h2
        rcases Nat.eq_or_lt_of_le h1 with he | hl
        · exact he ▸ h
        · exact hall j hl (by omega)
      · intro hall j h1 h2
        exact hall j (by omega) (by omega)
    case isFalse h =>
      constructor
      · intro hc; exact absurd hc (by simp)
      · intro hall; exact absurd (hall i (le_refl i) (by omega)) h

/-! ### The crc recomputation loop of the write path -/

theorem write_crcs_go_eq (crcFn : CrcFn) (data : Buf) (start : Nat) :
    ∀ rem i crcs w,
      write_crcs_go crcFn data start i rem crcs w =
        if start + i ≤ w ∧ w < start + i + rem then
          crcFn (fun v => data ((w - start) * 128 + v))
        else crcs w := by
  intro rem
  induction rem with
  | zero =>
    intro i crcs w
    simp only [write_crcs_go]
    rw [if_neg (by omega)]
  | succ rem ih =>
    intro i crcs w
    simp only [write_crcs_go]
    rw [ih (i + 1)]
    by_cases h1 : start + (i + 1) ≤ w ∧ w < start + (i + 1) + rem
    · rw [if_pos h1, if_pos (by omega)]
    · rw [if_neg h1]
      by_cases h2 : w = start + i
      · rw [if_pos h2, if_pos (by omega), show w - start = i from by omega]
      · rw [if_neg h2, if_neg (by omega)]

/-! ### Read-path characterization -/

/-- The content of a buffer after read_page_from_disk succeeds. -/
def rdData (st : IOState) (d : Nat) (page : Buf) (lenB offB sector : Nat) : Buf :=
  fun w =>
    if offB / 4 ≤ w ∧ w < offB / 4 + lenB / 4 then
      st.disks d (sector + (w - offB / 4) / 128) ((w - offB / 4) % 128)
    else page w

theorem read_page_ok_fst' (page : Buf) (lenB offB dev sector : Nat) (st : IOState) :
    (read_page_from_disk okOracle page lenB offB dev sector st).1 =
      rdData st dev page lenB offB sector := rfl

theorem rdData_opc (st : IOState) (x : Nat) (d : Nat) (page : Buf)
    (lenB offB sector : Nat) :
    rdData { st with opc := x } d page lenB offB sector =
      rdData st d page lenB offB sector := rfl

theorem upd_opc_disks (st : IOState) (x : Nat) :
    ({ st with opc := x } : IOState).disks = st.disks := rfl

theorem upd_opc_log (st : IOState) (x : Nat) :
    ({ st with opc := x } : IOState).log = st.log := rfl

theorem upd_opc_opc (st : IOState) (x : Nat) :
    ({ st with opc := x } : IOState).opc = x := rfl

theorem rdData_at_gen (st : IOState) (d : Nat) (page : Buf) (lenB offB sector w : Nat)
    (hw : w < lenB / 4) :
    rdData st d page lenB offB sector (offB / 4 + w) =
      st.disks d (sector + w / 128) (w % 128) := by
  unfold rdData
  rw [if_pos ⟨by omega, by omega⟩, show offB / 4 + w - offB / 4 = w from by omega]

theorem rdData_at (st : IOState) (d : Nat) (page : Buf) (lenB offB sector j w : Nat)
    (hw : w < 128) (hj : j * 128 + w < lenB / 4) :
    rdData st d page lenB offB sector (offB / 4 + (j * 128 + w)) =
      st.disks d (sector + j) w := by
  rw [rdData_at_gen st d page lenB offB sector (j * 128 + w) hj,
    show (j * 128 + w) / 128 = j from by omega,
    show (j * 128 + w) % 128 = w from by omega]

theorem rdData_at0 (st : IOState) (d : Nat) (page : Buf) (lenB sector idx : Nat)
    (hidx : idx < lenB / 4) :
    rdData st d page lenB 0 sector idx =
      st.disks d (sector + idx / 128) (idx % 128) := by
  have h := rdData_at_gen st d page lenB 0 sector idx hidx
  simpa using h

/-- Bridge: the condition the none-mode check loop verifies, over buffers
filled by the data read and the crc read, says exactly that the device
passes verification. -/
theorem check_cond_iff (crcFn : CrcFn) (hloc : CrcLocal crcFn) (st : IOState)
    (d : Nat) (base cp0 : Buf) (offB n sector : Nat) (hn : n ≤ 8) :
    ((∀ j, 0 ≤ j → j < 0 + n →
        crcFn (fun w => rdData st d base (n * 512) offB sector (offB / 4 + j * 128 + w)) =
          rdData st d cp0 (512 * 2) 0 (get_crc_sector sector) (get_crc_index sector + j)) ↔
      devPasses crcFn st d sector n) := by
  have hcif : get_crc_index sector < 128 := by
    rw [get_crc_index_eq]; omega
  have hA : ∀ j, j < n →
      crcFn (fun w => rdData st d base (n * 512) offB sector (offB / 4 + j * 128 + w)) =
        crcFn (fun w => st.disks d (sector + j) w) := by
    intro j hj
    apply hloc
    intro w hw
    rw [show offB / 4 + j * 128 + w = offB / 4 + (j * 128 + w) from by omega]
    exact rdData_at st d base (n * 512) offB sector j w hw
      (by rw [mul512_div4]; omega)
  have hB : ∀ j, j < n →
      rdData st d cp0 (512 * 2) 0 (get_crc_sector sector) (get_crc_index sector + j) =
        st.disks d (get_crc_sector sector + (get_crc_index sector + j) / 128)
          ((get_crc_index sector + j) % 128) := by
    intro j hj
    exact rdData_at0 st d cp0 (512 * 2) (get_crc_sector sector)
      (get_crc_index sector + j) (by norm_num; omega)
  constructor
  · intro hh i hi
    rw [← hA i hi, ← hB i hi]
    exact hh i (by omega) (by omega)
  · intro hh j h0j hj
    rw [hA j (by omega), hB j (by omega)]
    exact hh j (by omega)

/-- The error code of read_and_check_disks is 0 exactly when one of the two
devices passes verification over the whole range in the pre-state. -/
theorem rcd_ret_iff (crcFn : CrcFn) (hloc : CrcLocal crcFn) (bv_page : Buf)
    (offB n sector : Nat) (hn : n ≤ 8) (st₀ : IOState) :
    ((read_and_check_disks okOracle crcFn bv_page (n * 512) offB sector st₀).1 = 0 ↔
      devPasses crcFn st₀ 0 sector n ∨ devPasses crcFn st₀ 1 sector n) := by
  unfold read_and_check_disks check_and_repair_data
  simp only [KSS_eq, read_page_ok_fst', read_page_snd, rdData_opc, check_go_none_snd,
    mul512_div512, upd_opc_disks, upd_opc_log, check_go_none_fst,
    check_cond_iff crcFn hloc st₀ 0 bv_page freshPage offB n sector hn,
    check_cond_iff crcFn hloc st₀ 1 (rdData st₀ 0 bv_page (n * 512) offB sector)
      (rdData st₀ 0 freshPage (512 * 2) 0 (get_crc_sector sector)) offB n sector hn]
  by_cases h0 : devPasses crcFn st₀ 0 sector n
  · rw [if_pos h0]
    simp [h0]
  · rw [if_neg h0]
    by_cases h1 : devPasses crcFn st₀ 1 sector n
    · rw [if_pos h1]
      simp [h1]
    · rw [if_neg h1]
      simp [h0, h1]

/-- When device 0 passes verification, the read returns 0 and the caller's
page holds device 0's data over the requested range. -/
theorem rcd_pass0 (crcFn : CrcFn) (hloc : CrcLocal crcFn) (bv_page : Buf)
    (offB n sector : Nat) (hn : n ≤ 8) (st₀ : IOState)
    (h0 : devPasses crcFn st₀ 0 sector n) :
    (read_and_check_disks okOracle crcFn bv_page (n * 512) offB sector st₀).1 = 0 ∧
    (read_and_check_disks okOracle crcFn bv_page (n * 512) offB sector st₀).2.1 =
      rdData st₀ 0 bv_page (n * 512) offB sector := by
  unfold read_and_check_disks check_and_repair_data
  simp only [KSS_eq, read_page_ok_fst', read_page_snd, rdData_opc, check_go_none_snd,
    mul512_div512, upd_opc_disks, upd_opc_log, check_go_none_fst,
    check_cond_iff crcFn hloc st₀ 0 bv_page freshPage offB n sector hn]
  rw [if_pos h0]
  exact ⟨rfl, rfl⟩

/-- When both devices fail verification, the read returns -EIO, writes
nothing to either disk, and leaves the caller's page holding the bytes it
read from device 1 (unverified). -/
theorem rcd_fail (crcFn : CrcFn) (hloc : CrcLocal crcFn) (bv_page : Buf)
    (offB n sector : Nat) (hn : n ≤ 8) (st₀ : IOState)
    (h0 : ¬ devPasses crcFn st₀ 0 sector n) (h1 : ¬ devPasses crcFn st₀ 1 sector n) :
    (read_and_check_disks okOracle crcFn bv_page (n * 512) offB sector st₀).1 = -5 ∧
    (read_and_check_disks okOracle crcFn bv_page (n * 512) offB sector st₀).2.1 =
      rdData st₀ 1 (rdData st₀ 0 bv_page (n * 512) offB sector) (n * 512) offB sector ∧
    (read_and_check_disks okOracle crcFn bv_page (n * 512) offB sector st₀).2.2.disks =
      st₀.disks ∧
    (read_and_check_disks okOracle crcFn bv_page (n * 512) offB sector st₀).2.2.log =
      st₀.log := by
  unfold read_and_check_disks check_and_repair_data
  simp only [KSS_eq, read_page_ok_fst', read_page_snd, rdData_opc, check_go_none_snd,
    mul512_div512, upd_opc_disks, upd_opc_log, check_go_none_fst,
    check_cond_iff crcFn hloc st₀ 0 bv_page freshPage offB n sector hn,
    check_cond_iff crcFn hloc st₀ 1 (rdData st₀ 0 bv_page (n * 512) offB sector)
      (rdData st₀ 0 freshPage (512 * 2) 0 (get_crc_sector sector)) offB n sector hn]
  rw [if_neg h0, if_neg h1]
  exact ⟨rfl, rfl, rfl, rfl⟩

/-! ### Write-path characterization -/

/-- After one write segment, both devices hold the segment's page bytes at
the written data sectors. -/
theorem write_seg_data (crcFn : CrcFn) (pg : Buf) (offB n L : Nat) (st : IOState)
    (hcap : L + n ≤ LOGICAL_DISK_SECTORS) (d s w : Nat) (hd : d = 0 ∨ d = 1)
    (hsl : L ≤ s) (hsr : s < L + n) :
    (my_write_handler_seg okOracle crcFn ⟨pg, n * 512, offB⟩ L st).disks d s w =
      pg (offB / 4 + (s - L) * 128 + w) := by
  have hA : ¬ (LOGICAL_DISK_SECTORS + L / CRC_PER_SECTOR ≤ s) := by
    rw [CPS_eq]; omega
  unfold my_write_handler_seg write_payload_to_disk
  simp only [read_payload_snd, write_page_ok_eq, mul512_div512, KSS_eq]
  rcases hd with hd | hd <;> subst hd
  · simp [hA, hsl, hsr]
  · simp [hA, hsl, hsr]

/-- After one write segment, word idx of the crc sector for the segment
start holds, on both devices: the freshly computed crc of page bytes
[(idx - start_slot)*512, ...) when idx is one of the segment's slots, and
otherwise the value device 0 previously stored there. -/
theorem write_seg_crc (crcFn : CrcFn) (pg : Buf) (offB n L : Nat) (st : IOState)
    (hcap : L + n ≤ LOGICAL_DISK_SECTORS) (d idx : Nat) (hd : d = 0 ∨ d = 1)
    (hidx : idx < 128) :
    (my_write_handler_seg okOracle crcFn ⟨pg, n * 512, offB⟩ L st).disks d
        (LOGICAL_DISK_SECTORS + L / CRC_PER_SECTOR) idx =
      if L % CRC_PER_SECTOR ≤ idx ∧ idx < L % CRC_PER_SECTOR + n then
        crcFn (fun v => pg ((idx - L % CRC_PER_SECTOR) * 128 + v))
      else st.disks 0 (LOGICAL_DISK_SECTORS + L / CRC_PER_SECTOR) idx := by
  have hB : ¬ (LOGICAL_DISK_SECTORS + L / CRC_PER_SECTOR < L + n) := by
    rw [CPS_eq]; omega
  unfold my_write_handler_seg write_payload_to_disk
  simp only [read_payload_snd, write_page_ok_eq, read_payload_ok_fst, mul512_div512,
    KSS_eq, write_crcs_go_eq]
  rcases hd with hd | hd <;> subst hd <;>
    simp [hB, hidx, Nat.div_eq_of_lt hidx, Nat.mod_eq_of_lt hidx]

/-! ### Operation counting for the write path (any oracle) -/

theorem write_seg_opc (oracle : Oracle) (crcFn : CrcFn) (bv : Bvec) (sector : Nat)
    (st : IOState) :
    (my_write_handler_seg oracle crcFn bv sector st).opc = st.opc + 5 := by
  unfold my_write_handler_seg
  rw [write_payload_opc, write_payload_opc, read_payload_snd, upd_opc_opc,
    write_page_opc, write_page_opc]

theorem write_go_opc (oracle : Oracle) (crcFn : CrcFn) :
    ∀ (segs : List Bvec) (sector : Nat) (st : IOState),
      (my_write_handler_go oracle crcFn segs sector st).opc =
        st.opc + 5 * segs.length := by
  intro segs
  induction segs with
  | nil => intro sector st; simp [my_write_handler_go]
  | cons bv rest ih =>
    intro sector st
    simp only [my_write_handler_go, List.length_cons]
    rw [ih, write_seg_opc]
    ring

/-! ### Concrete states and inputs used to evaluate the model -/

/-- Both disks entirely zero; with mockCrc every zero sector matches its
zero crc slot, so this is a valid mirrored state. -/
def stZ : IOState := ⟨fun _ _ _ => 0, [], 0⟩

/-- Sector 0 holds 7 on both devices; device 0 stores the matching crc 7
for it, device 1 stores a corrupted crc 9.  Everything else is zero. -/
def stSlotCorrupt : IOState :=
  ⟨fun d s w =>
    if s = 0 then 7
    else if d = 0 ∧ s = 194560 ∧ w = 0 then 7
    else if d = 1 ∧ s = 194560 ∧ w = 0 then 9
    else 0, [], 0⟩

/-- Sectors 0 and 1 hold 7 and 5 on both devices.  Device 0's crc slot for
sector 0 is corrupt and its slot for sector 1 is good; device 1 is the
mirror image.  Every sector has exactly one good copy, but on different
devices. -/
def stMixedCorrupt : IOState :=
  ⟨fun d s w =>
    if s = 0 then 7
    else if s = 1 then 5
    else if s = 194560 ∧ w = 0 then (if d = 0 then 1 else 7)
    else if s = 194560 ∧ w = 1 then (if d = 0 then 5 else 1)
    else 0, [], 0⟩

/-- Sector 0: device 0 good (content 7, crc 7), device 1 crc-corrupt
(content 7, crc 9).  Sector 1: content 5 on both devices but both crc
slots hold 0, so both copies fail verification. -/
def stRepairThenBothBad : IOState :=
  ⟨fun d s w =>
    if s = 0 then 7
    else if s = 1 then 5
    else if d = 0 ∧ s = 194560 ∧ w = 0 then 7
    else if d = 1 ∧ s = 194560 ∧ w = 0 then 9
    else 0, [], 0⟩

/-- Sector 0 holds 3 on device 0 and 13 on device 1; all crc slots are 0,
so both copies fail verification. -/
def stBothBad : IOState :=
  ⟨fun d s w => if s = 0 then (if d = 0 then 3 else 13) else 0, [], 0⟩

/-! ### Claims -/

/-- C10.  The layout calculator maps logical sector L to CRC sector
194560 + L / 128 and slot index L mod 128 (a four-byte slot, so byte
offset (L mod 128) * 4 with the full slot inside the 512-byte sector);
LOGICAL_DISK_SECTORS = 194560, the CRC region is exactly 1520 sectors, and
each CRC sector holds 128 four-byte slots. -/
theorem c10_layout_calculator :
    ∀ L : Nat,
      get_crc_sector L = 194560 + L / 128 ∧
      get_crc_index L = L % 128 ∧
      get_crc_index L * 4 + 4 ≤ KERNEL_SECTOR_SIZE ∧
      LOGICAL_DISK_SECTORS = 194560 ∧
      LOGICAL_DISK_CRC_SECTORS = 1520 ∧
      CRC_PER_SECTOR = 128 := by
  intro L
  refine ⟨get_crc_sector_eq L, get_crc_index_eq L, ?_, LDS_eq, LDCS_eq, CPS_eq⟩
  rw [get_crc_index_eq, KSS_eq]
  omega

/-- C3.  The claim says an allocation failure completes the request with
an I/O error.  In the code the error path calls bio_endio without setting
bi_status, so a freshly submitted bio (bi_status BLK_STS_OK) is completed
with success, not with an I/O error; the no-token acknowledgment is
returned.  This theorem evaluates the dispatcher at the failing input. -/
theorem c3_alloc_failure_completes_ok :
    my_submit_bio false ⟨false, 0, [], BioStatus.ok⟩ =
      (SubmitOutcome.completedInline BioStatus.ok, true) ∧
    BioStatus.ok ≠ BioStatus.ioerr := by
  exact ⟨rfl, by decide⟩

/-- C4 (amended).  Backing-device I/O failures are ignored by the write
path: whatever the oracle makes the device operations do, the request
completes with the status the bio arrived with (never an I/O error caused
by the failure), and exactly five device operations are issued per segment
— each operation is issued exactly once, with no retry. -/
theorem c4_write_status_independent_of_device_failures :
    ∀ (oracle : Oracle) (crcFn : CrcFn) (bio : Bio) (st : IOState),
      (my_write_handler oracle crcFn bio st).1 = bio.bi_status ∧
      (my_write_handler oracle crcFn bio st).2.opc =
        st.opc + 5 * bio.segments.length := by
  intro oracle crcFn bio st
  exact ⟨rfl, write_go_opc oracle crcFn bio.segments bio.bi_sector st⟩

/-- C4 counterexample.  A write request during which the very first
backing-device operation (the data write to device 0) fails: device 0
keeps its old bytes while device 1 gets the new ones, yet the request
completes with success — not with the I/O error the claim requires. -/
theorem c4_io_failure_completes_ok_counterexample :
    (my_write_handler (fun i => decide (0 < i)) mockCrc
        ⟨true, 0, [⟨fun _ => 7, 512, 0⟩], BioStatus.ok⟩ stZ).1 = BioStatus.ok ∧
    (my_write_handler (fun i => decide (0 < i)) mockCrc
        ⟨true, 0, [⟨fun _ => 7, 512, 0⟩], BioStatus.ok⟩ stZ).2.disks 0 0 0 = 0 ∧
    (my_write_handler (fun i => decide (0 < i)) mockCrc
        ⟨true, 0, [⟨fun _ => 7, 512, 0⟩], BioStatus.ok⟩ stZ).2.disks 1 0 0 = 7 ∧
    BioStatus.ok ≠ BioStatus.ioerr := by
  refine ⟨rfl, by decide, by decide, by decide⟩

/-- C1.  The claim says a repair sets the bad device's CRC slot to the CRC
of the good data.  In the code the repair assignment stores crc_stored —
the value it just read from that very slot — back into it, a no-op, so
after a read that repairs a corrupted CRC slot the slot still holds the
corrupted value.  Evaluation: device 1's slot for sector 0 held 9 while
both copies of the data are 7 (whose crc is 7).  The read succeeds and
rewrites device 1's data sector and crc sector (see the write log), but
the slot keeps 9 and still differs from the crc of the sector's content. -/
theorem c1_crc_slot_not_repaired :
    (read_and_check_disks okOracle mockCrc (fun _ => 42) 512 0 0 stSlotCorrupt).1 = 0 ∧
    (read_and_check_disks okOracle mockCrc (fun _ => 42) 512 0 0 stSlotCorrupt).2.2.log =
      [(1, 0), (1, 194560)] ∧
    (read_and_check_disks okOracle mockCrc (fun _ => 42) 512 0 0 stSlotCorrupt).2.2.disks 1
      (get_crc_sector 0) (get_crc_index 0) = 9 ∧
    (read_and_check_disks okOracle mockCrc (fun _ => 42) 512 0 0 stSlotCorrupt).2.2.disks 1
        (get_crc_sector 0) (get_crc_index 0) ≠
      mockCrc (fun w =>
        (read_and_check_disks okOracle mockCrc (fun _ => 42) 512 0 0 stSlotCorrupt).2.2.disks 1
          0 w) := by
  refine ⟨by decide, by decide, by decide, by decide⟩

/-- C2.  The claim says a write spanning a CRC-sector boundary updates the
needed slots in both CRC sectors on both devices.  The code reads and
writes back only the first CRC sector, storing the crcs of the sectors
past the boundary beyond the end of the 128-slot crcs array; the second
CRC sector is never written.  Evaluation: an 8-sector write at logical
sector 124 covers sectors 128..131 whose slots live in CRC sector
get_crc_sector 128 = 194561; after the write that slot still holds its old
value 0 and differs from the crc of sector 128's freshly written payload. -/
theorem c2_second_crc_sector_not_updated :
    (my_write_handler okOracle mockCrc
        ⟨true, 124, [⟨fun w => w + 1, 4096, 0⟩], BioStatus.ok⟩ stZ).1 = BioStatus.ok ∧
    get_crc_sector 128 = 194561 ∧
    (my_write_handler okOracle mockCrc
        ⟨true, 124, [⟨fun w => w + 1, 4096, 0⟩], BioStatus.ok⟩ stZ).2.disks 0
      (get_crc_sector 128) (get_crc_index 128) = 0 ∧
    (my_write_handler okOracle mockCrc
        ⟨true, 124, [⟨fun w => w + 1, 4096, 0⟩], BioStatus.ok⟩ stZ).2.disks 0
        (get_crc_sector 128) (get_crc_index 128) ≠
      mockCrc (fun v =>
        (my_write_handler okOracle mockCrc
            ⟨true, 124, [⟨fun w => w + 1, 4096, 0⟩], BioStatus.ok⟩ stZ).2.disks 0 128 v) := by
  refine ⟨rfl, by decide, by decide, by decide⟩

/-- C7 (amended).  After a completed write of a single segment of n
sectors at logical sector L whose page offset is 0 and whose slot range
does not cross a CRC-sector boundary, both devices hold byte-identical
copies of the payload at sectors [L, L+n), and on both devices the CRC
slot of each written sector equals the crc of that sector's payload. -/
theorem c7_write_postcondition (crcFn : CrcFn) (Q : Buf) (L n : Nat) (st : IOState)
    (hcap : L + n ≤ LOGICAL_DISK_SECTORS) (hspan : L % CRC_PER_SECTOR + n ≤ 128) :
    (my_write_handler okOracle crcFn ⟨true, L, [⟨Q, n * 512, 0⟩], BioStatus.ok⟩ st).1 =
      BioStatus.ok ∧
    ∀ j, j < n →
      (∀ w,
        (my_write_handler okOracle crcFn
            ⟨true, L, [⟨Q, n * 512, 0⟩], BioStatus.ok⟩ st).2.disks 0 (L + j) w =
          Q (j * 128 + w) ∧
        (my_write_handler okOracle crcFn
            ⟨true, L, [⟨Q, n * 512, 0⟩], BioStatus.ok⟩ st).2.disks 1 (L + j) w =
          Q (j * 128 + w)) ∧
      (my_write_handler okOracle crcFn
          ⟨true, L, [⟨Q, n * 512, 0⟩], BioStatus.ok⟩ st).2.disks 0
        (get_crc_sector (L + j)) (get_crc_index (L + j)) =
        crcFn (fun v => Q (j * 128 + v)) ∧
      (my_write_handler okOracle crcFn
          ⟨true, L, [⟨Q, n * 512, 0⟩], BioStatus.ok⟩ st).2.disks 1
        (get_crc_sector (L + j)) (get_crc_index (L + j)) =
        crcFn (fun v => Q (j * 128 + v)) := by
  have hW : (my_write_handler okOracle crcFn
      ⟨true, L, [⟨Q, n * 512, 0⟩], BioStatus.ok⟩ st).2 =
      my_write_handler_seg okOracle crcFn ⟨Q, n * 512, 0⟩ L st := rfl
  have hs' : L % 128 + n ≤ 128 := by
    rw [CPS_eq] at hspan; exact hspan
  refine ⟨rfl, ?_⟩
  intro j hj
  have hjlt : L % CRC_PER_SECTOR + j < 128 := by
    rw [CPS_eq]; omega
  have hcs : get_crc_sector (L + j) = LOGICAL_DISK_SECTORS + L / CRC_PER_SECTOR := by
    simp only [get_crc_sector, CPS_eq]
    omega
  have hci : get_crc_index (L + j) = L % CRC_PER_SECTOR + j := by
    simp only [get_crc_index, CPS_eq]
    omega
  refine ⟨fun w => ⟨?_, ?_⟩, ?_, ?_⟩
  · rw [hW, write_seg_data crcFn Q 0 n L st hcap 0 (L + j) w (Or.inl rfl)
      (by omega) (by omega),
      show (0 : Nat) / 4 + (L + j - L) * 128 + w = j * 128 + w from by omega]
  · rw [hW, write_seg_data crcFn Q 0 n L st hcap 1 (L + j) w (Or.inr rfl)
      (by omega) (by omega),
      show (0 : Nat) / 4 + (L + j - L) * 128 + w = j * 128 + w from by omega]
  · rw [hW, hcs, hci,
      write_seg_crc crcFn Q 0 n L st hcap 0 (L % CRC_PER_SECTOR + j) (Or.inl rfl) hjlt,
      if_pos ⟨Nat.le_add_right _ _, by omega⟩,
      show L % CRC_PER_SECTOR + j - L % CRC_PER_SECTOR = j from by omega]
  · rw [hW, hcs, hci,
      write_seg_crc crcFn Q 0 n L st hcap 1 (L % CRC_PER_SECTOR + j) (Or.inr rfl) hjlt,
      if_pos ⟨Nat.le_add_right _ _, by omega⟩,
      show L % CRC_PER_SECTOR + j - L % CRC_PER_SECTOR = j from by omega]

/-- C7 counterexample.  A one-sector write whose segment has page offset
512: the payload written to the data sector comes from page bytes
[512, 1024), but the CRC loop computes the crc of page bytes [0, 512), so
the stored slot (here 0) differs from the crc of the sector's stored
payload (here 128) — refuting the claim for arbitrary completed writes. -/
theorem c7_nonzero_offset_crc_mismatch_counterexample :
    (my_write_handler okOracle mockCrc
        ⟨true, 0, [⟨fun w => w, 512, 512⟩], BioStatus.ok⟩ stZ).1 = BioStatus.ok ∧
    (my_write_handler okOracle mockCrc
        ⟨true, 0, [⟨fun w => w, 512, 512⟩], BioStatus.ok⟩ stZ).2.disks 0 0 0 = 128 ∧
    (my_write_handler okOracle mockCrc
        ⟨true, 0, [⟨fun w => w, 512, 512⟩], BioStatus.ok⟩ stZ).2.disks 0
      (get_crc_sector 0) (get_crc_index 0) = 0 ∧
    (my_write_handler okOracle mockCrc
        ⟨true, 0, [⟨fun w => w, 512, 512⟩], BioStatus.ok⟩ stZ).2.disks 0
        (get_crc_sector 0) (get_crc_index 0) ≠
      mockCrc (fun v =>
        (my_write_handler okOracle mockCrc
            ⟨true, 0, [⟨fun w => w, 512, 512⟩], BioStatus.ok⟩ stZ).2.disks 0 0 v) := by
  refine ⟨rfl, by decide, by decide, by decide⟩

/-- C7 witness: the amended postcondition evaluated for a one-sector write
at logical sector 0. -/
theorem c7_witness :
    0 + 1 ≤ LOGICAL_DISK_SECTORS ∧ 0 % CRC_PER_SECTOR + 1 ≤ 128 ∧
    ((my_write_handler okOracle mockCrc
        ⟨true, 0, [⟨fun w => w + 3, 1 * 512, 0⟩], BioStatus.ok⟩ stZ).1 = BioStatus.ok ∧
    ∀ j, j < 1 →
      (∀ w,
        (my_write_handler okOracle mockCrc
            ⟨true, 0, [⟨fun w => w + 3, 1 * 512, 0⟩], BioStatus.ok⟩ stZ).2.disks 0 (0 + j) w =
          (fun w => w + 3) (j * 128 + w) ∧
        (my_write_handler okOracle mockCrc
            ⟨true, 0, [⟨fun w => w + 3, 1 * 512, 0⟩], BioStatus.ok⟩ stZ).2.disks 1 (0 + j) w =
          (fun w => w + 3) (j * 128 + w)) ∧
      (my_write_handler okOracle mockCrc
          ⟨true, 0, [⟨fun w => w + 3, 1 * 512, 0⟩], BioStatus.ok⟩ stZ).2.disks 0
        (get_crc_sector (0 + j)) (get_crc_index (0 + j)) =
        mockCrc (fun v => (fun w => w + 3) (j * 128 + v)) ∧
      (my_write_handler okOracle mockCrc
          ⟨true, 0, [⟨fun w => w + 3, 1 * 512, 0⟩], BioStatus.ok⟩ stZ).2.disks 1
        (get_crc_sector (0 + j)) (get_crc_index (0 + j)) =
        mockCrc (fun v => (fun w => w + 3) (j * 128 + v))) :=
  ⟨by decide, by decide,
    c7_write_postcondition mockCrc (fun w => w + 3) 0 1 stZ (by decide) (by decide)⟩

/-- C8 (amended).  For a write of n sectors at L with payload Q (page
offset 0, slot range inside one CRC sector), a subsequent read of the same
range succeeds and returns exactly the written payload — from any starting
state. -/
theorem c8_write_read_roundtrip (crcFn : CrcFn) (hloc : CrcLocal crcFn) (Q U : Buf)
    (L n : Nat) (st : IOState) (hn : n ≤ 8)
    (hcap : L + n ≤ LOGICAL_DISK_SECTORS) (hspan : L % CRC_PER_SECTOR + n ≤ 128) :
    (my_read_handler okOracle crcFn ⟨false, L, [⟨U, n * 512, 0⟩], BioStatus.ok⟩
        (my_write_handler okOracle crcFn
          ⟨true, L, [⟨Q, n * 512, 0⟩], BioStatus.ok⟩ st).2).1 = BioStatus.ok ∧
    ∀ p ∈ (my_read_handler okOracle crcFn ⟨false, L, [⟨U, n * 512, 0⟩], BioStatus.ok⟩
        (my_write_handler okOracle crcFn
          ⟨true, L, [⟨Q, n * 512, 0⟩], BioStatus.ok⟩ st).2).2.1,
      ∀ w, w < n * 128 → p w = Q w := by
  have hW : (my_write_handler okOracle crcFn
      ⟨true, L, [⟨Q, n * 512, 0⟩], BioStatus.ok⟩ st).2 =
      my_write_handler_seg okOracle crcFn ⟨Q, n * 512, 0⟩ L st := rfl
  have hs' : L % 128 + n ≤ 128 := by
    rw [CPS_eq] at hspan; exact hspan
  have hpass : devPasses crcFn
      (my_write_handler okOracle crcFn
        ⟨true, L, [⟨Q, n * 512, 0⟩], BioStatus.ok⟩ st).2 0 L n := by
    intro i hi
    have hlt : get_crc_index L + i < 128 := by
      simp only [get_crc_index, CPS_eq]; omega
    have hcont : (fun w =>
        (my_write_handler okOracle crcFn
          ⟨true, L, [⟨Q, n * 512, 0⟩], BioStatus.ok⟩ st).2.disks 0 (L + i) w) =
        fun w => Q (i * 128 + w) := by
      funext w
      rw [hW, write_seg_data crcFn Q 0 n L st hcap 0 (L + i) w (Or.inl rfl)
        (by omega) (by omega),
        show (0 : Nat) / 4 + (L + i - L) * 128 + w = i * 128 + w from by omega]
    rw [hcont, show (get_crc_index L + i) / 128 = 0 from by omega,
      Nat.add_zero, Nat.mod_eq_of_lt hlt, hW]
    have hsec : get_crc_sector L = LOGICAL_DISK_SECTORS + L / CRC_PER_SECTOR := rfl
    have hidx : get_crc_index L + i = L % CRC_PER_SECTOR + i := rfl
    rw [hsec, hidx,
      write_seg_crc crcFn Q 0 n L st hcap 0 (L % CRC_PER_SECTOR + i) (Or.inl rfl)
        (by rw [CPS_eq]; omega),
      if_pos ⟨Nat.le_add_right _ _, by omega⟩,
      show L % CRC_PER_SECTOR + i - L % CRC_PER_SECTOR = i from by omega]
  have hrcd := rcd_pass0 crcFn hloc U 0 n L hn
    (my_write_handler okOracle crcFn
      ⟨true, L, [⟨Q, n * 512, 0⟩], BioStatus.ok⟩ st).2 hpass
  constructor
  · simp only [my_read_handler, my_read_handler_go]
    rw [if_pos hrcd.1]
    rfl
  · intro p hp w hw
    simp only [my_read_handler, my_read_handler_go] at hp
    rw [if_pos hrcd.1] at hp
    simp only [List.mem_singleton] at hp
    subst hp
    rw [hrcd.2]
    have hw4 : w < n * 512 / 4 := by rw [mul512_div4]; omega
    have hval := rdData_at_gen
      (my_write_handler okOracle crcFn
        ⟨true, L, [⟨Q, n * 512, 0⟩], BioStatus.ok⟩ st).2 0 U (n * 512) 0 L w hw4
    rw [show (0 : Nat) / 4 + w = w from by omega] at hval
    rw [hval, hW,
      write_seg_data crcFn Q 0 n L st hcap 0 (L + w / 128) (w % 128) (Or.inl rfl)
        (by omega) (by omega),
      show (0 : Nat) / 4 + (L + w / 128 - L) * 128 + w % 128 = w from by omega]

/-- C8 counterexample.  Starting from the all-zero state — whose CRC
region is valid for mockCrc: both devices pass verification everywhere,
in particular over the range — a write of 8 sectors at logical sector 124
spans the CRC-sector boundary, and the subsequent read of the same range
completes with an I/O error instead of returning the written payload. -/
theorem c8_boundary_span_roundtrip_fails_counterexample :
    devPasses mockCrc stZ 0 124 8 ∧ devPasses mockCrc stZ 1 124 8 ∧
    (my_read_handler okOracle mockCrc ⟨false, 124, [⟨freshPage, 4096, 0⟩], BioStatus.ok⟩
        (my_write_handler okOracle mockCrc
          ⟨true, 124, [⟨fun w => w + 1, 4096, 0⟩], BioStatus.ok⟩ stZ).2).1 =
      BioStatus.ioerr ∧
    BioStatus.ioerr ≠ BioStatus.ok := by
  refine ⟨by decide, by decide, by decide, by decide⟩

/-- C8 witness: the amended round trip evaluated for a one-sector write
and read at logical sector 0. -/
theorem c8_witness :
    CrcLocal mockCrc ∧ 1 ≤ 8 ∧ 0 + 1 ≤ LOGICAL_DISK_SECTORS ∧
    0 % CRC_PER_SECTOR + 1 ≤ 128 ∧
    ((my_read_handler okOracle mockCrc ⟨false, 0, [⟨fun _ => 0, 1 * 512, 0⟩], BioStatus.ok⟩
        (my_write_handler okOracle mockCrc
          ⟨true, 0, [⟨fun w => w + 3, 1 * 512, 0⟩], BioStatus.ok⟩ stZ).2).1 =
      BioStatus.ok ∧
    ∀ p ∈ (my_read_handler okOracle mockCrc ⟨false, 0, [⟨fun _ => 0, 1 * 512, 0⟩], BioStatus.ok⟩
        (my_write_handler okOracle mockCrc
          ⟨true, 0, [⟨fun w => w + 3, 1 * 512, 0⟩], BioStatus.ok⟩ stZ).2).2.1,
      ∀ w, w < 1 * 128 → p w = (fun w => w + 3) w) :=
  ⟨mockCrc_local, by decide, by decide, by decide,
    c8_write_read_roundtrip mockCrc mockCrc_local (fun w => w + 3) (fun _ => 0) 0 1 stZ
      (by decide) (by decide) (by decide)⟩

/-- C5 (amended).  A read request completes successfully precisely when at
least one single device passes CRC verification over every sector of the
requested range; when each device has some failing sector — even though
every sector has a good copy on one of the devices — the whole request
fails with an I/O error. -/
theorem c5_read_success_iff_one_device_passes (crcFn : CrcFn) (hloc : CrcLocal crcFn)
    (U : Buf) (offB L n : Nat) (hn : n ≤ 8) (st : IOState) :
    ((my_read_handler okOracle crcFn ⟨false, L, [⟨U, n * 512, offB⟩], BioStatus.ok⟩ st).1 =
        BioStatus.ok ↔
      devPasses crcFn st 0 L n ∨ devPasses crcFn st 1 L n) := by
  have hiff := rcd_ret_iff crcFn hloc U offB n L hn st
  simp only [my_read_handler, my_read_handler_go]
  by_cases h : devPasses crcFn st 0 L n ∨ devPasses crcFn st 1 L n
  · rw [if_pos (hiff.mpr h)]
    simp only [my_read_handler_go]
    simp [h]
  · rw [if_neg (fun hc => h (hiff.mp hc))]
    simp [h]

/-- C5 counterexample.  In stMixedCorrupt every sector of the two-sector
range has exactly one good copy: device 1 passes on sector 0 and device 0
passes on sector 1, while the other copy's CRC slot mismatches.  The claim
requires the read to repair and succeed; the code fails the request with
an I/O error because neither single device passes on the whole range. -/
theorem c5_mixed_corruption_fails_counterexample :
    mockCrc (fun w => stMixedCorrupt.disks 1 0 w) =
      stMixedCorrupt.disks 1 (get_crc_sector 0) (get_crc_index 0) ∧
    mockCrc (fun w => stMixedCorrupt.disks 0 1 w) =
      stMixedCorrupt.disks 0 (get_crc_sector 1) (get_crc_index 1) ∧
    mockCrc (fun w => stMixedCorrupt.disks 0 0 w) ≠
      stMixedCorrupt.disks 0 (get_crc_sector 0) (get_crc_index 0) ∧
    mockCrc (fun w => stMixedCorrupt.disks 1 1 w) ≠
      stMixedCorrupt.disks 1 (get_crc_sector 1) (get_crc_index 1) ∧
    (my_read_handler okOracle mockCrc
        ⟨false, 0, [⟨fun _ => 42, 1024, 0⟩], BioStatus.ok⟩ stMixedCorrupt).1 =
      BioStatus.ioerr := by
  refine ⟨by decide, by decide, by decide, by decide, by decide⟩

/-- C5 witness: the amended success condition evaluated on a one-sector
read where device 0 passes and device 1's CRC slot is corrupt. -/
theorem c5_witness :
    CrcLocal mockCrc ∧ 1 ≤ 8 ∧
    ((my_read_handler okOracle mockCrc
        ⟨false, 0, [⟨fun _ => 42, 1 * 512, 0⟩], BioStatus.ok⟩ stSlotCorrupt).1 =
        BioStatus.ok ↔
      devPasses mockCrc stSlotCorrupt 0 0 1 ∨ devPasses mockCrc stSlotCorrupt 1 0 1) :=
  ⟨mockCrc_local, by decide,
    c5_read_success_iff_one_device_passes mockCrc mockCrc_local (fun _ => 42) 0 0 1
      (by decide) stSlotCorrupt⟩

/-- C6 (amended).  For a single-segment read whose range contains a sector
corrupt on both devices — so that neither device passes verification —
the request completes with an I/O error and no storage on either backing
device is modified and nothing is written (the write log is unchanged).
For multi-segment requests the error is still delivered, but repairs of
earlier segments may already have written to the devices (see the
counterexample). -/
theorem c6_both_bad_fails_without_writes (crcFn : CrcFn) (hloc : CrcLocal crcFn)
    (U : Buf) (offB L n : Nat) (hn : n ≤ 8) (st : IOState)
    (h0 : ¬ devPasses crcFn st 0 L n) (h1 : ¬ devPasses crcFn st 1 L n) :
    (my_read_handler okOracle crcFn ⟨false, L, [⟨U, n * 512, offB⟩], BioStatus.ok⟩ st).1 =
      BioStatus.ioerr ∧
    (my_read_handler okOracle crcFn
        ⟨false, L, [⟨U, n * 512, offB⟩], BioStatus.ok⟩ st).2.2.disks = st.disks ∧
    (my_read_handler okOracle crcFn
        ⟨false, L, [⟨U, n * 512, offB⟩], BioStatus.ok⟩ st).2.2.log = st.log := by
  have hf := rcd_fail crcFn hloc U offB n L hn st h0 h1
  have hne : ¬ ((read_and_check_disks okOracle crcFn U (n * 512) offB L st).1 = 0) := by
    rw [hf.1]; decide
  simp only [my_read_handler, my_read_handler_go]
  rw [if_neg hne]
  exact ⟨rfl, hf.2.2.1, hf.2.2.2⟩

/-- C6 counterexample.  A two-segment read over stRepairThenBothBad: the
first segment (sector 0) is repaired — device 1's copy fails and device
0's passes, so the engine writes device 1's data sector and CRC sector —
and the second segment (sector 1) is corrupt on both devices.  The request
completes with an I/O error, as the claim says, but writes to device 1
did occur as part of the request, refuting the no-writes part. -/
theorem c6_earlier_segment_repair_writes_counterexample :
    mockCrc (fun w => stRepairThenBothBad.disks 0 1 w) ≠
      stRepairThenBothBad.disks 0 (get_crc_sector 1) (get_crc_index 1) ∧
    mockCrc (fun w => stRepairThenBothBad.disks 1 1 w) ≠
      stRepairThenBothBad.disks 1 (get_crc_sector 1) (get_crc_index 1) ∧
    (my_read_handler okOracle mockCrc
        ⟨false, 0, [⟨fun _ => 42, 512, 0⟩, ⟨fun _ => 41, 512, 0⟩], BioStatus.ok⟩
        stRepairThenBothBad).1 = BioStatus.ioerr ∧
    (my_read_handler okOracle mockCrc
        ⟨false, 0, [⟨fun _ => 42, 512, 0⟩, ⟨fun _ => 41, 512, 0⟩], BioStatus.ok⟩
        stRepairThenBothBad).2.2.log = [(1, 0), (1, 194560)] ∧
    (my_read_handler okOracle mockCrc
        ⟨false, 0, [⟨fun _ => 42, 512, 0⟩, ⟨fun _ => 41, 512, 0⟩], BioStatus.ok⟩
        stRepairThenBothBad).2.2.log ≠ stRepairThenBothBad.log := by
  refine ⟨by decide, by decide, by decide, by decide, by decide⟩

/-- C6 witness: the amended no-writes failure evaluated on a one-sector
read of a sector corrupt on both devices. -/
theorem c6_witness :
    CrcLocal mockCrc ∧ 1 ≤ 8 ∧
    ¬ devPasses mockCrc stBothBad 0 0 1 ∧ ¬ devPasses mockCrc stBothBad 1 0 1 ∧
    ((my_read_handler okOracle mockCrc
        ⟨false, 0, [⟨fun _ => 42, 1 * 512, 0⟩], BioStatus.ok⟩ stBothBad).1 =
      BioStatus.ioerr ∧
    (my_read_handler okOracle mockCrc
        ⟨false, 0, [⟨fun _ => 42, 1 * 512, 0⟩], BioStatus.ok⟩ stBothBad).2.2.disks =
      stBothBad.disks ∧
    (my_read_handler okOracle mockCrc
        ⟨false, 0, [⟨fun _ => 42, 1 * 512, 0⟩], BioStatus.ok⟩ stBothBad).2.2.log =
      stBothBad.log) :=
  ⟨mockCrc_local, by decide, by decide, by decide,
    c6_both_bad_fails_without_writes mockCrc mockCrc_local (fun _ => 42) 0 0 1
      (by decide) stBothBad (by decide) (by decide)⟩

/-- C9 (amended).  The read path buffers device data directly into the
caller's page until a verified copy is found: when both devices fail
verification, the request errors out with the caller's page holding the
bytes just read from device 1 — unverified, possibly corrupt — rather
than being left untouched. -/
theorem c9_failed_read_puts_device1_bytes_in_caller_page (crcFn : CrcFn)
    (hloc : CrcLocal crcFn) (U : Buf) (offB L n : Nat) (hn : n ≤ 8) (st : IOState)
    (h0 : ¬ devPasses crcFn st 0 L n) (h1 : ¬ devPasses crcFn st 1 L n) :
    (read_and_check_disks okOracle crcFn U (n * 512) offB L st).1 = -5 ∧
    ∀ w, w < n * 128 →
      (read_and_check_disks okOracle crcFn U (n * 512) offB L st).2.1 (offB / 4 + w) =
        st.disks 1 (L + w / 128) (w % 128) := by
  have hf := rcd_fail crcFn hloc U offB n L hn st h0 h1
  refine ⟨hf.1, ?_⟩
  intro w hw
  rw [hf.2.1]
  exact rdData_at_gen st 1 (rdData st 0 U (n * 512) offB L) (n * 512) offB L w
    (by rw [mul512_div4]; omega)

/-- C9 counterexample.  Both copies of sector 0 are corrupt in stBothBad;
the read fails, and the caller's page — which held 42 before the request —
now holds 13, the unverified bytes of device 1: corrupt bytes were stored
into the caller's segment page before (indeed, without) passing CRC
verification. -/
theorem c9_caller_page_overwritten_counterexample :
    (read_and_check_disks okOracle mockCrc (fun _ => 42) 512 0 0 stBothBad).1 = -5 ∧
    mockCrc (fun w => stBothBad.disks 1 0 w) ≠
      stBothBad.disks 1 (get_crc_sector 0) (get_crc_index 0) ∧
    (read_and_check_disks okOracle mockCrc (fun _ => 42) 512 0 0 stBothBad).2.1 0 = 13 ∧
    (read_and_check_disks okOracle mockCrc (fun _ => 42) 512 0 0 stBothBad).2.1 0 ≠ 42 := by
  refine ⟨by decide, by decide, by decide, by decide⟩

/-- C9 witness: the amended statement evaluated on stBothBad. -/
theorem c9_witness :
    CrcLocal mockCrc ∧ 1 ≤ 8 ∧
    ¬ devPasses mockCrc stBothBad 0 0 1 ∧ ¬ devPasses mockCrc stBothBad 1 0 1 ∧
    ((read_and_check_disks okOracle mockCrc (fun _ => 42) (1 * 512) 0 0 stBothBad).1 = -5 ∧
    ∀ w, w < 1 * 128 →
      (read_and_check_disks okOracle mockCrc (fun _ => 42) (1 * 512) 0 0 stBothBad).2.1
          (0 / 4 + w) =
        stBothBad.disks 1 (0 + w / 128) (w % 128)) :=
  ⟨mockCrc_local, by decide, by decide, by decide,
    c9_failed_read_puts_device1_bytes_in_caller_page mockCrc mockCrc_local (fun _ => 42)
      0 0 1 (by decide) stBothBad (by decide) (by decide)⟩

end SSR
